import Mathlib

/-!
Verification of the GitLab integration module
(`src/sentry/integrations/gitlab/integration.py`).

The module is shallowly embedded below: each Python function that the
properties concern becomes a Lean function over explicit data types.
Python dicts become association lists `List (String × String)` or records,
HTTP traffic is modelled by passing the request descriptor / response value
explicitly, and fallible operations return `Option` / `Except`.
-/

/-- A JSON object, modelled as an association list from keys to string values
(the fields the module reads are all strings or are formatted as strings). -/
abbrev JsonObj := List (String × String)

/-- Modelled from the spec: `ERR_INTERNAL` is imported from
`sentry.integrations.constants`, which is not part of this excerpt; the spec
describes it as the generic internal-error message shown when a non-API
exception reaches the error translator. Its exact text does not matter for
any property below, only that it is a fixed string. -/
def ERR_INTERNAL : String :=
  "An internal error occurred with the integration and the Sentry team has been notified"

/-- Modelled from the spec: `ERR_UNAUTHORIZED` is imported from
`sentry.integrations.constants`, which is not part of this excerpt; the spec
describes it as the generic unauthorized message used for HTTP 401. -/
def ERR_UNAUTHORIZED : String :=
  "Unauthorized: either your access token was invalid or you do not have access"

/-- The static `API_ERRORS` table of the module: maps HTTP status codes to
fixed user-facing messages (404 and 401 only). -/
def API_ERRORS : List (Nat × String) :=
  [(404, "Gitlab returned a 404 Not Found error. If this repository exists, ensure" ++
         " that your installation has permission to access this repository"),
   (401, ERR_UNAUTHORIZED)]

/-- Modelled from the spec: `ApiError` lives in `sentry.integrations.exceptions`
(not in this excerpt). Per the spec it carries the HTTP status (`code`) and the
parsed JSON body (`json`), which may be absent (`None`). -/
structure ApiError where
  code : Nat
  json : Option JsonObj
deriving DecidableEq, Repr

/-- An exception reaching `message_from_error`: either an `ApiError` or any
other (non-API) exception, whose payload the translator never inspects. -/
inductive PyExc where
  | api (e : ApiError)
  | other
deriving DecidableEq, Repr

/-- `GitlabIntegration.message_from_error`. For an `ApiError` it first consults
`API_ERRORS` (a fetched message is used only if truthy, i.e. non-empty);
otherwise it formats `Error Communicating with Gitlab (HTTP code): msg` where
`msg` is the JSON body field `message` when the body is truthy (present and
non-empty), defaulting to `unknown error`. Non-API exceptions map to
`ERR_INTERNAL`. -/
def message_from_error : PyExc → String
  | PyExc.api e =>
    match List.lookup e.code API_ERRORS with
    | some message =>
      if message = "" then
        "Error Communicating with Gitlab (HTTP " ++ toString e.code ++ "): " ++
          (match e.json with
           | some j => if j = [] then "unknown error"
                       else (List.lookup "message" j).getD "unknown error"
           | none => "unknown error")
      else message
    | none =>
      "Error Communicating with Gitlab (HTTP " ++ toString e.code ++ "): " ++
        (match e.json with
         | some j => if j = [] then "unknown error"
                     else (List.lookup "message" j).getD "unknown error"
         | none => "unknown error")
  | PyExc.other => ERR_INTERNAL

/-- The message part that `message_from_error` extracts from an optional JSON
body: the `message` field when the body is truthy, else `unknown error`. -/
def jsonMessage : Option JsonObj → String
  | some j => if j = [] then "unknown error"
              else (List.lookup "message" j).getD "unknown error"
  | none => "unknown error"

/-- C1: total mapping of exceptions to user-facing strings: 404 and 401 hit the
fixed `API_ERRORS` entries, any other `ApiError` status yields the formatted
string embedding the status code and the JSON `message` field (or
`unknown error` when body or field is absent), and every non-`ApiError`
exception yields `ERR_INTERNAL`. Totality holds because `message_from_error`
is a total Lean function into `String`. -/
theorem message_from_error_cases :
    (∀ e : ApiError, e.code = 404 →
        message_from_error (PyExc.api e) =
          "Gitlab returned a 404 Not Found error. If this repository exists, ensure" ++
          " that your installation has permission to access this repository") ∧
    (∀ e : ApiError, e.code = 401 →
        message_from_error (PyExc.api e) = ERR_UNAUTHORIZED) ∧
    (∀ e : ApiError, e.code ≠ 404 → e.code ≠ 401 →
        message_from_error (PyExc.api e) =
          "Error Communicating with Gitlab (HTTP " ++ toString e.code ++ "): " ++
            jsonMessage e.json) ∧
    (message_from_error PyExc.other = ERR_INTERNAL) := by
  refine ⟨?_, ?_, ?_, rfl⟩
  · intro e h
    simp [message_from_error, h, API_ERRORS, List.lookup]
  · intro e h
    simp [message_from_error, h, API_ERRORS, List.lookup, ERR_UNAUTHORIZED]
  · intro e h404 h401
    have h1 : (e.code == 404) = false := by simp [h404]
    have h2 : (e.code == 401) = false := by simp [h401]
    have hl : List.lookup e.code API_ERRORS = none := by
      simp [API_ERRORS, List.lookup, h1, h2]
    simp [message_from_error, hl, jsonMessage]

/-- Witness for C1: the four cases evaluated at concrete exceptions. -/
theorem message_from_error_cases_witness :
    message_from_error (PyExc.api ⟨404, none⟩) =
      "Gitlab returned a 404 Not Found error. If this repository exists, ensure" ++
      " that your installation has permission to access this repository" ∧
    message_from_error (PyExc.api ⟨401, none⟩) = ERR_UNAUTHORIZED ∧
    message_from_error (PyExc.api ⟨500, some [("message", "boom")]⟩) =
      "Error Communicating with Gitlab (HTTP 500): boom" ∧
    message_from_error PyExc.other = ERR_INTERNAL := by
  refine ⟨message_from_error_cases.1 ⟨404, none⟩ rfl,
          message_from_error_cases.2.1 ⟨401, none⟩ rfl,
          (message_from_error_cases.2.2.1 ⟨500, some [("message", "boom")]⟩
            (by decide) (by decide)).trans (by rfl),
          message_from_error_cases.2.2.2⟩

/-! ## Form cleaning and the installation config view -/

/-- A valid scheme character for `urlparse` (letters, digits, `+`, `-`, `.`). -/
def isSchemeChar (c : Char) : Bool :=
  c.isAlpha || c.isDigit || c = '+' || c = '-' || c = '.'

/-- The scheme-stripping phase of `urlparse` (from `six.moves.urllib.parse`):
when the text up to the first colon is a non-empty run of scheme characters,
and the remainder is not a pure digit run (the port-number special case),
the scheme and colon are removed. -/
def removeScheme (cs : List Char) : List Char :=
  match List.findIdx? (· = ':') cs with
  | some i =>
    if 0 < i ∧ (cs.take i).all isSchemeChar then
      let rest := cs.drop (i + 1)
      if rest ≠ [] ∧ rest.all Char.isDigit then cs else rest
    else cs
  | none => cs

/-- The `netloc` component of `urlparse(url)`: after stripping the scheme,
when the remainder starts with `//` the netloc is the run of characters up to
the first `/`, `?` or `#`; otherwise it is the empty string. When the
extracted netloc contains an opening bracket without a closing one or vice
versa, `urlsplit` raises `ValueError` (Invalid IPv6 URL), modelled as
`none`. -/
def urlparse_netloc (url : String) : Option String :=
  match removeScheme url.data with
  | '/' :: '/' :: tail =>
    let netloc := tail.takeWhile (fun c => c ≠ '/' && c ≠ '?' && c ≠ '#')
    if ('[' ∈ netloc ∧ ¬ ']' ∈ netloc) ∨ (']' ∈ netloc ∧ ¬ '[' ∈ netloc) then
      none
    else some (String.mk netloc)
  | _ => some ""

/-- The cleaned data of a valid `InstallationForm` submission, before the view
rewrites `url` to its netloc. -/
structure CleanedForm where
  url : String
  name : String
  group : String
  client_id : String
  client_secret : String
  verify_ssl : Bool
deriving DecidableEq, Repr

/-- The `installation_data` record bound into the pipeline state: the cleaned
form data with `url` replaced by its host (netloc) component. -/
structure InstallationData where
  url : String
  name : String
  group : String
  client_id : String
  client_secret : String
  verify_ssl : Bool
deriving DecidableEq, Repr

/-- The `oauth_config_information` record bound into the pipeline state. -/
structure OAuthConfig where
  access_token_url : String
  authorize_url : String
  client_id : String
  client_secret : String
  verify_ssl : Bool
deriving DecidableEq, Repr

/-- The valid-form branch of `InstallationConfigView.dispatch`: rewrites the
submitted `url` to `urlparse(url).netloc` and binds both the installation data
and the derived OAuth configuration. When `urlparse` raises on an invalid
IPv6 authority, the view raises too and binds nothing (`none`). -/
def installation_config (form_data : CleanedForm) :
    Option (InstallationData × OAuthConfig) :=
  match urlparse_netloc form_data.url with
  | none => none
  | some host =>
    some
      ({ url := host
         name := form_data.name
         group := form_data.group
         client_id := form_data.client_id
         client_secret := form_data.client_secret
         verify_ssl := form_data.verify_ssl },
       { access_token_url := "https://" ++ host ++ "/oauth/token"
         authorize_url := "https://" ++ host ++ "/oauth/authorize"
         client_id := form_data.client_id
         client_secret := form_data.client_secret
         verify_ssl := form_data.verify_ssl })

/-! ## Token payload and oauth data -/

/-- The token payload `state[identity][data]` returned by the OAuth token
exchange. `access_token` is always present (the code indexes it directly);
`refresh_token` and `token_type` may be absent from the dict, which the
`Option` encodes; `scope` is whatever scope string the provider echoed back. -/
structure TokenPayload where
  access_token : String
  refresh_token : Option String
  token_type : Option String
  scope : Option String
deriving DecidableEq, Repr

/-- `GitlabIntegrationProvider.get_oauth_data`: builds a dict with
`access_token`, then conditionally copies `refresh_token` and `token_type`
when the payload holds them. Result is the dict in insertion order. -/
def get_oauth_data (payload : TokenPayload) : JsonObj :=
  [("access_token", payload.access_token)]
    ++ (match payload.refresh_token with
        | some v => [("refresh_token", v)]
        | none => [])
    ++ (match payload.token_type with
        | some v => [("token_type", v)]
        | none => [])

/-! ## Group and user info, integration assembly -/

/-- The fields of the group-lookup JSON response that `build_integration`
reads (`name`, `id`, `avatar_url`, `web_url`); `id` is the numeric group id. -/
structure GroupInfo where
  id : Nat
  name : String
  avatar_url : String
  web_url : String
deriving DecidableEq, Repr

/-- The field of the user-lookup JSON response that `build_integration`
reads (`id`). -/
structure UserInfo where
  id : Nat
deriving DecidableEq, Repr

/-- Modelled from the spec: `GitlabIdentityProvider.oauth_scopes` lives in
`sentry.identity.gitlab.provider`, outside this excerpt. The spec fixes the
scope set to exactly api and sudo, matching the `oauth_scopes` tuple
`(api, sudo)` that `_make_identity_pipeline_view` passes to the identity
pipeline. -/
def GitlabIdentityProvider_oauth_scopes : List String := ["api", "sudo"]

/-- Lexicographic-by-code-point comparison of strings as character lists,
mirroring how Python compares strings when sorting. -/
def charListLe : List Char → List Char → Bool
  | [], _ => true
  | _ :: _, [] => false
  | a :: as, b :: bs =>
    if a.toNat < b.toNat then true
    else if b.toNat < a.toNat then false
    else charListLe as bs

/-- Insert a string into a sorted list of strings (helper for `pySorted`). -/
def insortStr (x : String) : List String → List String
  | [] => [x]
  | y :: ys => if charListLe x.data y.data then x :: y :: ys else y :: insortStr x ys

/-- Python `sorted` on a list of strings: stable ascending sort. -/
def pySorted (l : List String) : List String := l.foldr insortStr []

/-- The slice of pipeline state that `build_integration` reads:
`installation_data` and `state[identity][data]`. -/
structure PipelineState where
  installation_data : InstallationData
  identity_data : TokenPayload
deriving DecidableEq, Repr

/-- The metadata dict of the assembled integration. -/
structure IntegrationMetadataRec where
  icon : String
  domain_name : String
  scopes : List String
  verify_ssl : Bool
deriving DecidableEq, Repr

/-- The user-identity dict of the assembled integration. -/
structure UserIdentity where
  type : String
  external_id : Nat
  scopes : List String
  data : JsonObj
deriving DecidableEq, Repr

/-- The assembled integration record. -/
structure Integration where
  name : String
  external_id : String
  metadata : IntegrationMetadataRec
  user_identity : UserIdentity
deriving DecidableEq, Repr

/-- `GitlabIntegrationProvider.build_integration`. The two network lookups
(`get_user_info` and `get_group_info`) are modelled by passing their parsed
results `user` and `group` explicitly; the rest is the pure assembly the
Python method performs. -/
def build_integration (state : PipelineState) (user : UserInfo) (group : GroupInfo) :
    Integration :=
  let data := state.identity_data
  let oauth_data := get_oauth_data data
  let scopes := pySorted GitlabIdentityProvider_oauth_scopes
  let base_url := state.installation_data.url
  { name := group.name
    external_id := base_url ++ ":" ++ toString group.id
    metadata :=
      { icon := group.avatar_url
        domain_name := String.replace group.web_url "https://" ""
        scopes := scopes
        verify_ssl := state.installation_data.verify_ssl }
    user_identity :=
      { type := "gitlab"
        external_id := user.id
        scopes := scopes
        data := oauth_data } }

/-! ## Bound form validation (Django semantics of `InstallationForm`) -/

/-- A raw POST submission to `InstallationForm`: each field is `some` raw
string when the key is present in the POST data, `none` when absent
(an unchecked HTML checkbox sends nothing). -/
structure RawSubmission where
  url : Option String
  name : Option String
  group : Option String
  client_id : Option String
  client_secret : Option String
  verify_ssl : Option String
deriving DecidableEq, Repr

/-- Lowercase a string (ASCII), as Python `str.lower` does on these inputs. -/
def pyLower (s : String) : String := String.mk (s.data.map Char.toLower)

/-- A required `CharField` passes validation exactly when the key is present
and its value is non-empty (Django `empty_values`). -/
def requiredCharOk : Option String → Bool
  | none => false
  | some s => !(s = "")

/-- The cleaned value of the `verify_ssl` field: Django `CheckboxInput` yields
`False` when the key is absent; otherwise the literal `false` (any case) and
the empty string clean to `False` and every other value is truthy. The
`initial = True` set in `InstallationForm.__init__` only pre-checks the
rendered checkbox and never feeds cleaning of a bound form. -/
def cleanVerifySsl : Option String → Bool
  | none => false
  | some s => if pyLower s = "false" then false else !(s = "")

/-- `InstallationForm.is_valid` on a bound submission: all five `CharField`s
are required; `verify_ssl` is `required=False` and never blocks validation. -/
def form_is_valid (r : RawSubmission) : Bool :=
  requiredCharOk r.url && requiredCharOk r.name && requiredCharOk r.group &&
    requiredCharOk r.client_id && requiredCharOk r.client_secret

/-- Binding a submission: `some cleaned_data` when the form validates,
`none` when any required field is missing or empty. -/
def clean_form (r : RawSubmission) : Option CleanedForm :=
  match r.url, r.name, r.group, r.client_id, r.client_secret with
  | some u, some n, some g, some ci, some cs =>
    if u = "" ∨ n = "" ∨ g = "" ∨ ci = "" ∨ cs = "" then none
    else some { url := u, name := n, group := g, client_id := ci,
                client_secret := cs, verify_ssl := cleanVerifySsl r.verify_ssl }
  | _, _, _, _, _ => none

/-! ## The group lookup (`get_group_info`) and its HTTP model -/

/-- The observable parts of the GET request that `get_group_info` issues:
target URL, headers and the TLS-verification flag. -/
structure HttpRequest where
  url : String
  headers : List (String × String)
  verify : Bool
deriving DecidableEq, Repr

/-- An HTTP response as `get_group_info` observes it: the status code and the
JSON value that `resp.json()` would parse from the body. -/
structure HttpResponse where
  status_code : Nat
  jsonBody : JsonObj
deriving DecidableEq, Repr

/-- The error that `requests` `Response.raise_for_status` raises: it carries
the status code (embedded in its message) and the whole response object. -/
structure HTTPError where
  status_code : Nat
  response : HttpResponse
deriving DecidableEq, Repr

/-- `requests` `Response.raise_for_status`: raises exactly when the status
code is a 4xx client error or a 5xx server error (400 ≤ status < 600);
1xx, 2xx and 3xx statuses raise nothing. -/
def raise_for_status (resp : HttpResponse) : Option HTTPError :=
  if 400 ≤ resp.status_code ∧ resp.status_code < 600 then
    some ⟨resp.status_code, resp⟩
  else none

/-- The request `GitlabIntegrationProvider.get_group_info` builds: URL
`https://{url}/api/v4/groups/{group}` from the installation data, an `Accept`
header, a bearer `Authorization` header, and `verify` from `verify_ssl`. -/
def get_group_info_request (access_token : String) (d : InstallationData) :
    HttpRequest :=
  { url := "https://" ++ d.url ++ "/api/v4/groups/" ++ d.group
    headers := [("Accept", "application/json"),
                ("Authorization", "Bearer " ++ access_token)]
    verify := d.verify_ssl }

/-- `GitlabIntegrationProvider.get_group_info`, with the network modelled by a
function `doGet` from request to response: issue the single GET, call
`raise_for_status`, and return the parsed JSON body on success. -/
def get_group_info (doGet : HttpRequest → HttpResponse)
    (access_token : String) (d : InstallationData) : Except HTTPError JsonObj :=
  let resp := doGet (get_group_info_request access_token d)
  match raise_for_status resp with
  | some e => Except.error e
  | none => Except.ok resp.jsonBody

/-! ## `reinstall` -/

/-- Python `str.split` with an explicit single-character separator: splits on
every occurrence, keeping empty segments (so the result is never empty). -/
def pySplit (sep : Char) : List Char → List (List Char)
  | [] => [[]]
  | c :: cs =>
    if c = sep then [] :: pySplit sep cs
    else
      match pySplit sep cs with
      | [] => [[c]]
      | w :: ws => (c :: w) :: ws

/-- Python dict assignment `m[k] = v` on an association list: replace the
value at the first occurrence of `k`, or append `(k, v)` when absent. -/
def dictSet (m : JsonObj) (k v : String) : JsonObj :=
  match m with
  | [] => [(k, v)]
  | (k0, v0) :: rest =>
    if k0 = k then (k, v) :: rest else (k0, v0) :: dictSet rest k v

/-- The metadata effect of `GitlabIntegration.reinstall`: it takes
`external_id.split(':')[1]` as the installation id — raising `IndexError`
(modelled as `none`) when the split has no second element — and stores it
under `installation_id` in the model metadata before calling
`self.model.update`. -/
def reinstall_metadata (external_id : String) (meta : JsonObj) : Option JsonObj :=
  match (pySplit ':' external_id.data).get? 1 with
  | none => none
  | some seg => some (dictSet meta "installation_id" (String.mk seg))

/-! ## Example values and helper lemmas -/

/-- A concrete token payload with both optional keys present. -/
def examplePayload : TokenPayload :=
  { access_token := "abc", refresh_token := some "r29f43",
    token_type := some "bearer", scope := some "api sudo" }

/-- A concrete token payload lacking `refresh_token` and `token_type`. -/
def exampleBarePayload : TokenPayload :=
  { access_token := "abc", refresh_token := none,
    token_type := none, scope := some "read_user" }

/-- A concrete installation data record. -/
def exampleInstallation : InstallationData :=
  { url := "gitlab.example.com", name := "Sentry App", group := "my-group",
    client_id := "cid", client_secret := "sec", verify_ssl := true }

/-- A concrete pipeline state. -/
def exampleState : PipelineState :=
  { installation_data := exampleInstallation, identity_data := examplePayload }

/-- A concrete group-lookup result with id 42. -/
def exampleGroup : GroupInfo :=
  { id := 42, name := "My Group",
    avatar_url := "https://gitlab.example.com/avatar.png",
    web_url := "https://gitlab.example.com/my-group" }

/-- A concrete user-lookup result. -/
def exampleUser : UserInfo := { id := 7 }

/-- A concrete valid submission in which `verify_ssl` is absent from the
POST data (an unchecked checkbox). -/
def omittedSslSubmission : RawSubmission :=
  { url := some "https://gitlab.example.com", name := some "Sentry App",
    group := some "my-group", client_id := some "cid",
    client_secret := some "sec", verify_ssl := none }

/-- Binding inversion: the `verify_ssl` of bound cleaned data is the cleaned
checkbox value of the raw submission. -/
theorem clean_form_verify_ssl (r : RawSubmission) (c : CleanedForm)
    (h : clean_form r = some c) : c.verify_ssl = cleanVerifySsl r.verify_ssl := by
  rcases r with ⟨u, n, g, ci, cs, vs⟩
  rcases u with _ | u <;> rcases n with _ | n <;> rcases g with _ | g <;>
    rcases ci with _ | ci <;> rcases cs with _ | cs <;>
    simp [clean_form] at h
  rcases h with ⟨h1, h2⟩
  subst h2
  rfl

/-- Binding succeeds exactly when the form validates. -/
theorem clean_form_isSome (r : RawSubmission) :
    (clean_form r).isSome = form_is_valid r := by
  rcases r with ⟨u, n, g, ci, cs, vs⟩
  rcases u with _ | u <;> rcases n with _ | n <;> rcases g with _ | g <;>
    rcases ci with _ | ci <;> rcases cs with _ | cs <;>
    simp [clean_form, form_is_valid, requiredCharOk]
  by_cases hu : u = "" <;> by_cases hn : n = "" <;> by_cases hg : g = "" <;>
    by_cases hci : ci = "" <;> by_cases hcs : cs = "" <;>
    simp [hu, hn, hg, hci, hcs]

/-- Updating a key makes it present with the new value. -/
theorem dictSet_lookup_self (m : JsonObj) (k v : String) :
    List.lookup k (dictSet m k v) = some v := by
  induction m with
  | nil => simp [dictSet, List.lookup]
  | cons p rest ih =>
    rcases p with ⟨k0, v0⟩
    by_cases h : k0 = k
    · simp [dictSet, h, List.lookup]
    · have hb : (k == k0) = false := by
        simp [Ne.symm h]
      simp [dictSet, h, List.lookup, hb, ih]

/-- Updating a key leaves every other key unchanged. -/
theorem dictSet_lookup_other (m : JsonObj) (k v k2 : String) (hk : k2 ≠ k) :
    List.lookup k2 (dictSet m k v) = List.lookup k2 m := by
  induction m with
  | nil =>
    have hb : (k2 == k) = false := by simp [hk]
    simp [dictSet, List.lookup, hb]
  | cons p rest ih =>
    rcases p with ⟨k0, v0⟩
    by_cases h : k0 = k
    · subst h
      have hb : (k2 == k0) = false := by simp [hk]
      simp [dictSet, List.lookup, hb]
    · simp [dictSet, h, List.lookup, ih]

/-- `str.split` on a string not containing the separator is the whole string
as a single segment. -/
theorem pySplit_no_sep (sep : Char) (cs : List Char) (h : ¬ sep ∈ cs) :
    pySplit sep cs = [cs] := by
  induction cs with
  | nil => rfl
  | cons c rest ih =>
    have hc : ¬ c = sep := fun hcs => h (hcs ▸ List.mem_cons_self c rest)
    have hr : ¬ sep ∈ rest := fun hm => h (List.mem_cons_of_mem c hm)
    simp [pySplit, hc, ih hr]

/-! ## Claim theorems -/

/-- C2: the assembled integration has
`external_id = base_url ++ ":" ++ group id` for every state and group lookup
result, and in particular `gitlab.example.com:42` for base url
`gitlab.example.com` and group id 42. -/
theorem build_integration_external_id :
    (∀ (state : PipelineState) (user : UserInfo) (group : GroupInfo),
        (build_integration state user group).external_id =
          state.installation_data.url ++ ":" ++ toString group.id) ∧
    (build_integration exampleState exampleUser exampleGroup).external_id =
      "gitlab.example.com:42" :=
  ⟨fun _ _ _ => rfl, rfl⟩

/-- Counterexample to C3 as stated: the url-to-config step is not total.
`https://[::1/path` is a valid `CharField` submission, but `urlparse` raises
`ValueError` (Invalid IPv6 URL) on its mismatched bracket, so `dispatch`
raises at the netloc rewrite and binds no OAuth configuration at all — there
is a failure mode. -/
theorem installation_config_ipv6_counterexample :
    urlparse_netloc "https://[::1/path" = none ∧
    installation_config
        ⟨"https://[::1/path", "Sentry App", "my-group", "cid", "sec", true⟩ =
      none :=
  ⟨rfl, rfl⟩

/-- C3 amended: whenever `urlparse` yields a netloc for the submitted url
(every url whose authority has no mismatched bracket), the bound OAuth config
uses only that host component — `https://host/oauth/token` and
`https://host/oauth/authorize` — with `client_id`, `client_secret` and
`verify_ssl` copied unchanged, and the bound installation data carries the
same host; scheme, path and query are discarded, as the concrete example
shows. The construction involves no network call, but it is not total: when
the authority has a mismatched bracket, `urlparse` raises and nothing is
bound. -/
theorem installation_config_spec :
    (∀ (fd : CleanedForm) (host : String), urlparse_netloc fd.url = some host →
        installation_config fd =
          some
            ({ url := host, name := fd.name, group := fd.group,
               client_id := fd.client_id, client_secret := fd.client_secret,
               verify_ssl := fd.verify_ssl },
             { access_token_url := "https://" ++ host ++ "/oauth/token",
               authorize_url := "https://" ++ host ++ "/oauth/authorize",
               client_id := fd.client_id, client_secret := fd.client_secret,
               verify_ssl := fd.verify_ssl })) ∧
    (∀ fd : CleanedForm, urlparse_netloc fd.url = none →
        installation_config fd = none) ∧
    urlparse_netloc "https://gitlab.example.com/foo?x=1" =
      some "gitlab.example.com" := by
  refine ⟨?_, ?_, rfl⟩
  · intro fd host h
    simp [installation_config, h]
  · intro fd h
    simp [installation_config, h]

/-- Witness for C3 amended: evaluated at a submission whose url parses to
host `gitlab.example.com` and at one with a mismatched bracket. -/
theorem installation_config_spec_witness :
    installation_config
        ⟨"https://gitlab.example.com/foo?x=1", "Sentry App", "my-group",
          "cid", "sec", true⟩ =
      some
        (⟨"gitlab.example.com", "Sentry App", "my-group", "cid", "sec", true⟩,
         ⟨"https://gitlab.example.com/oauth/token",
          "https://gitlab.example.com/oauth/authorize", "cid", "sec", true⟩) ∧
    installation_config ⟨"https://[::1", "n", "g", "ci", "cs", false⟩ = none :=
  ⟨(installation_config_spec.1
      ⟨"https://gitlab.example.com/foo?x=1", "Sentry App", "my-group",
        "cid", "sec", true⟩
      "gitlab.example.com" (by decide)).trans (by rfl),
   installation_config_spec.2.1 ⟨"https://[::1", "n", "g", "ci", "cs", false⟩
     (by decide)⟩

/-- C4: `get_oauth_data` always carries `access_token`; it carries
`refresh_token` (resp. `token_type`) with the payload value exactly when the
payload holds that key — the `Option`-valued lookup equality states both the
iff and the value — and no other key ever appears, so absent keys are omitted
entirely rather than set to a placeholder. -/
theorem get_oauth_data_keys :
    ∀ p : TokenPayload,
      List.lookup "access_token" (get_oauth_data p) = some p.access_token ∧
      List.lookup "refresh_token" (get_oauth_data p) = p.refresh_token ∧
      List.lookup "token_type" (get_oauth_data p) = p.token_type ∧
      ∀ k v, (k, v) ∈ get_oauth_data p →
        k = "access_token" ∨ k = "refresh_token" ∨ k = "token_type" := by
  intro p
  rcases p with ⟨a, rt, tt, sc⟩
  rcases rt with _ | r <;> rcases tt with _ | t <;>
    refine ⟨rfl, rfl, rfl, ?_⟩ <;>
    · intro k v h
      simp [get_oauth_data] at h
      tauto

/-- Witness for C4: the lookups evaluated at a payload lacking both optional
keys and at a payload holding both. -/
theorem get_oauth_data_keys_witness :
    List.lookup "access_token" (get_oauth_data exampleBarePayload) = some "abc" ∧
    List.lookup "refresh_token" (get_oauth_data exampleBarePayload) = none ∧
    List.lookup "token_type" (get_oauth_data exampleBarePayload) = none ∧
    List.lookup "refresh_token" (get_oauth_data examplePayload) = some "r29f43" :=
  ⟨(get_oauth_data_keys exampleBarePayload).1.trans rfl,
   (get_oauth_data_keys exampleBarePayload).2.1.trans rfl,
   (get_oauth_data_keys exampleBarePayload).2.2.1.trans rfl,
   (get_oauth_data_keys examplePayload).2.1.trans rfl⟩

/-- C5: both scope lists of the assembled integration are exactly the sorted
`[api, sudo]`, for every pipeline state (in particular whatever scope string
the provider echoed back in `identity_data.scope`), user and group. -/
theorem build_integration_scopes :
    ∀ (state : PipelineState) (user : UserInfo) (group : GroupInfo),
      (build_integration state user group).metadata.scopes = ["api", "sudo"] ∧
      (build_integration state user group).user_identity.scopes = ["api", "sudo"] :=
  fun _ _ _ => ⟨rfl, rfl⟩

/-- Counterexample to C6 as stated: a submission omitting `verify_ssl`
validates, but the bound `verify_ssl` is `false`, not `true` — Django binds an
absent checkbox of a `required=False` `BooleanField` to `False`; the
`initial = True` only affects rendering. -/
theorem clean_form_omitted_ssl_counterexample :
    form_is_valid omittedSslSubmission = true ∧
    Option.map CleanedForm.verify_ssl (clean_form omittedSslSubmission) = some false ∧
    ¬ Option.map CleanedForm.verify_ssl (clean_form omittedSslSubmission) = some true := by
  refine ⟨rfl, rfl, ?_⟩
  intro h
  simp [omittedSslSubmission, clean_form, cleanVerifySsl] at h

/-- C6 amended: when `verify_ssl` is omitted, validation still succeeds
whenever the five required fields are present and non-empty (binding succeeds
exactly when the form validates), but the bound `verify_ssl` is `false`; and
each of url, name, group, client_id and client_secret is required — a
submission missing any of them binds nothing. -/
theorem clean_form_omitted_ssl_amended :
    (∀ (r : RawSubmission), r.verify_ssl = none →
        ∀ c : CleanedForm, clean_form r = some c → c.verify_ssl = false) ∧
    (∀ r : RawSubmission, (clean_form r).isSome = form_is_valid r) ∧
    (∀ r : RawSubmission,
        r.url = none ∨ r.name = none ∨ r.group = none ∨
          r.client_id = none ∨ r.client_secret = none →
        clean_form r = none) := by
  refine ⟨?_, clean_form_isSome, ?_⟩
  · intro r hvs c hc
    rw [clean_form_verify_ssl r c hc, hvs]
    rfl
  · intro r h
    rcases r with ⟨u, n, g, ci, cs, vs⟩
    rcases u with _ | u <;> rcases n with _ | n <;> rcases g with _ | g <;>
      rcases ci with _ | ci <;> rcases cs with _ | cs <;>
      simp [clean_form] at h ⊢

/-- Witness for C6 amended: evaluated at the concrete submission omitting
`verify_ssl` and at one missing its `url`. -/
theorem clean_form_omitted_ssl_amended_witness :
    CleanedForm.verify_ssl
        ⟨"https://gitlab.example.com", "Sentry App", "my-group", "cid", "sec", false⟩ =
      false ∧
    (clean_form omittedSslSubmission).isSome = form_is_valid omittedSslSubmission ∧
    clean_form ⟨none, some "n", some "g", some "ci", some "cs", none⟩ = none :=
  ⟨clean_form_omitted_ssl_amended.1 omittedSslSubmission rfl _ (by decide),
   clean_form_omitted_ssl_amended.2.1 omittedSslSubmission,
   clean_form_omitted_ssl_amended.2.2 ⟨none, some "n", some "g", some "ci", some "cs", none⟩
     (Or.inl rfl)⟩

/-- C7: the group lookup issues a GET to exactly
`https://url/api/v4/groups/group` built from the installation data, bearing
the `Authorization: Bearer token` header, with `verify` set to the
installation data `verify_ssl` flag. -/
theorem get_group_info_request_spec :
    ∀ (access_token : String) (d : InstallationData),
      (get_group_info_request access_token d).url =
        "https://" ++ d.url ++ "/api/v4/groups/" ++ d.group ∧
      ("Authorization", "Bearer " ++ access_token) ∈
        (get_group_info_request access_token d).headers ∧
      (get_group_info_request access_token d).verify = d.verify_ssl :=
  fun t d => ⟨rfl, by simp [get_group_info_request], rfl⟩

/-- A server that always answers 304 Not Modified. -/
def respond304 : HttpRequest → HttpResponse :=
  fun _ => ⟨304, [("message", "not modified")]⟩

/-- A server that always answers 200 with a group body. -/
def respond200 : HttpRequest → HttpResponse :=
  fun _ => ⟨200, [("id", "42"), ("name", "My Group")]⟩

/-- A server that always answers 404 with a message body. -/
def respond404 : HttpRequest → HttpResponse :=
  fun _ => ⟨404, [("message", "404 Group Not Found")]⟩

/-- Counterexample to C8 as stated: a 304 response is not 2xx, yet
`get_group_info` raises nothing and returns the parsed body —
`raise_for_status` only raises for 4xx/5xx, not for every non-2xx status. -/
theorem get_group_info_304_counterexample :
    ¬ (200 ≤ 304 ∧ 304 < 300) ∧
    get_group_info respond304 "tok" exampleInstallation =
      Except.ok [("message", "not modified")] := by
  exact ⟨by decide, rfl⟩

/-- C8 amended: the group lookup issues its single GET and raises exactly when
the status is 4xx or 5xx (400 ≤ status < 600); the raised error carries the
status code and the full response, whose body holds any JSON `message` field;
for every other status — all 2xx, and also 1xx/3xx — it returns the parsed
JSON body and raises nothing. No retry: the result is determined by the one
response. -/
theorem get_group_info_raise_spec :
    ∀ (doGet : HttpRequest → HttpResponse) (t : String) (d : InstallationData),
      (400 ≤ (doGet (get_group_info_request t d)).status_code ∧
          (doGet (get_group_info_request t d)).status_code < 600 →
        get_group_info doGet t d =
          Except.error ⟨(doGet (get_group_info_request t d)).status_code,
                        doGet (get_group_info_request t d)⟩) ∧
      (¬ (400 ≤ (doGet (get_group_info_request t d)).status_code ∧
            (doGet (get_group_info_request t d)).status_code < 600) →
        get_group_info doGet t d =
          Except.ok (doGet (get_group_info_request t d)).jsonBody) := by
  intro doGet t d
  constructor
  · intro h
    simp [get_group_info, raise_for_status, h]
  · intro h
    simp [get_group_info, raise_for_status, h]

/-- Witness for C8 amended: a 404 response raises the error carrying 404 and
the response; a 200 response returns the body. -/
theorem get_group_info_raise_spec_witness :
    get_group_info respond404 "tok" exampleInstallation =
      Except.error ⟨404, ⟨404, [("message", "404 Group Not Found")]⟩⟩ ∧
    get_group_info respond200 "tok" exampleInstallation =
      Except.ok [("id", "42"), ("name", "My Group")] :=
  ⟨(get_group_info_raise_spec respond404 "tok" exampleInstallation).1 (by decide),
   (get_group_info_raise_spec respond200 "tok" exampleInstallation).2 (by decide)⟩

/-- C9: the `verify_ssl` boolean bound from a valid form submission (the
cleaned checkbox value) flows unchanged into the bound OAuth configuration,
into the bound installation data, and from there into the metadata of the
integration assembled by `build_integration`, for every payload, user and
group. -/
theorem verify_ssl_roundtrip :
    ∀ (r : RawSubmission) (c : CleanedForm) (inst : InstallationData)
      (cfg : OAuthConfig),
      clean_form r = some c → installation_config c = some (inst, cfg) →
      c.verify_ssl = cleanVerifySsl r.verify_ssl ∧
      cfg.verify_ssl = c.verify_ssl ∧
      inst.verify_ssl = c.verify_ssl ∧
      ∀ (payload : TokenPayload) (user : UserInfo) (group : GroupInfo),
        (build_integration ⟨inst, payload⟩ user group).metadata.verify_ssl
          = c.verify_ssl := by
  intro r c inst cfg hc hic
  rcases hhost : urlparse_netloc c.url with _ | host <;>
    simp [installation_config, hhost] at hic
  rcases hic with ⟨hinst, hcfg⟩
  subst hinst
  subst hcfg
  exact ⟨clean_form_verify_ssl r c hc, rfl, rfl, fun _ _ _ => rfl⟩

/-- Witness for C9: evaluated at a concrete submission with
`verify_ssl = on`, whose bound value is `true`. -/
theorem verify_ssl_roundtrip_witness :
    (⟨"https://gitlab.example.com", "Sentry App", "my-group", "cid", "sec", true⟩ :
        CleanedForm).verify_ssl =
      cleanVerifySsl (some "on") ∧
    (⟨"https://gitlab.example.com/oauth/token",
      "https://gitlab.example.com/oauth/authorize", "cid", "sec", true⟩ :
        OAuthConfig).verify_ssl =
      (⟨"https://gitlab.example.com", "Sentry App", "my-group", "cid", "sec", true⟩ :
        CleanedForm).verify_ssl ∧
    (build_integration
        ⟨⟨"gitlab.example.com", "Sentry App", "my-group", "cid", "sec", true⟩,
          examplePayload⟩ exampleUser exampleGroup).metadata.verify_ssl =
      (⟨"https://gitlab.example.com", "Sentry App", "my-group", "cid", "sec", true⟩ :
        CleanedForm).verify_ssl := by
  have h := verify_ssl_roundtrip
    { url := some "https://gitlab.example.com", name := some "Sentry App",
      group := some "my-group", client_id := some "cid",
      client_secret := some "sec", verify_ssl := some "on" }
    ⟨"https://gitlab.example.com", "Sentry App", "my-group", "cid", "sec", true⟩
    ⟨"gitlab.example.com", "Sentry App", "my-group", "cid", "sec", true⟩
    ⟨"https://gitlab.example.com/oauth/token",
     "https://gitlab.example.com/oauth/authorize", "cid", "sec", true⟩
    (by decide) (by decide)
  exact ⟨h.1, h.2.1, h.2.2.2 examplePayload exampleUser exampleGroup⟩

/-- C10: whenever `external_id` splits on `:` into at least two segments,
`reinstall` stores the second segment under `installation_id` in the model
metadata and leaves the lookup of every other key unchanged; when
`external_id` contains no colon the split has a single segment and the
indexing raises (`none`), so the metadata is not updated. -/
theorem reinstall_metadata_spec :
    ∀ (external_id : String) (meta : JsonObj),
      (∀ seg, (pySplit ':' external_id.data).get? 1 = some seg →
          reinstall_metadata external_id meta =
            some (dictSet meta "installation_id" (String.mk seg)) ∧
          List.lookup "installation_id" (dictSet meta "installation_id" (String.mk seg)) =
            some (String.mk seg) ∧
          ∀ k, k ≠ "installation_id" →
            List.lookup k (dictSet meta "installation_id" (String.mk seg)) =
              List.lookup k meta) ∧
      (¬ ':' ∈ external_id.data → reinstall_metadata external_id meta = none) := by
  intro eid meta
  constructor
  · intro seg hseg
    refine ⟨?_, dictSet_lookup_self meta _ (String.mk seg), ?_⟩
    · simp only [List.get?_eq_getElem?] at hseg
      simp [reinstall_metadata, hseg]
    · intro k hk
      exact dictSet_lookup_other meta _ (String.mk seg) k hk
  · intro h
    simp [reinstall_metadata, pySplit_no_sep ':' eid.data h]

/-- Witness for C10: evaluated at `gitlab.example.com:42` (second segment
`42` stored, key `x` untouched) and at a colon-free external id (failure). -/
theorem reinstall_metadata_spec_witness :
    reinstall_metadata "gitlab.example.com:42" [("x", "1")] =
      some [("x", "1"), ("installation_id", "42")] ∧
    List.lookup "x" (dictSet [("x", "1")] "installation_id" "42") =
      List.lookup "x" [("x", "1")] ∧
    reinstall_metadata "gitlab" [("x", "1")] = none := by
  have h1 := (reinstall_metadata_spec "gitlab.example.com:42" [("x", "1")]).1
    "42".data (by decide)
  have h2 := (reinstall_metadata_spec "gitlab" [("x", "1")]).2 (by decide)
  exact ⟨h1.1.trans (by rfl), h1.2.2 "x" (by decide), h2⟩
